import Mathlib

/-!
Verification development for the persona-api repository.

The Python services are shallowly embedded as pure Lean functions.
External collaborators (the Supabase relational store, the OpenAI chat
model, the network, the stdlib JSON decoder and the BeautifulSoup HTML
parser) are modelled as explicit state or as function parameters; the
repository's own control flow and data transformations are translated
directly from the source files under app/.
-/

namespace PersonaApi

/-- JSON values as produced by the Python stdlib json decoder: objects,
arrays, strings, numbers, booleans and null.  Numbers are modelled as
integers, which is enough for every claim considered here. -/
inductive Json where
  | obj (fields : List (String × Json))
  | arr (items : List Json)
  | str (s : String)
  | num (n : Int)
  | boolean (b : Bool)
  | null

/-- Whether a JSON value is an object (a Python dict). -/
def Json.isObj : Json → Bool
  | .obj _ => true
  | _ => false

/-- Error conditions raised by the services.  Python raises ValueError or
TypeError everywhere; the constructors record the semantic kind of the
condition (not-found, validation, upstream/LLM, unparseable model output,
dict-assignment TypeError) while `msg` carries the exception message. -/
inductive Err where
  | notFound (msg : String)
  | validation (msg : String)
  | upstream (msg : String)
  | parseFailure (msg : String)
  | typeError (msg : String)
deriving Repr, DecidableEq

/-- Re-raising with a wrapped message, as in
raise ValueError(f"...: \x7be\x7d") from e.  The kind of the condition is
preserved, mirroring how the wrapped message still identifies it. -/
def Err.wrap (p : String) : Err → Err
  | .notFound m => .notFound (p ++ m)
  | .validation m => .validation (p ++ m)
  | .upstream m => .upstream (p ++ m)
  | .parseFailure m => .parseFailure (p ++ m)
  | .typeError m => .typeError (p ++ m)

/-- The hard parse failure raised by PersonaLLMChain._safe_json_parse when
every recovery strategy fails (app/services/llm_chain.py line 271). -/
def parseError : Err := .parseFailure "Could not parse JSON response from LLM"

/-- Python str.find: index of the first occurrence of `c`, or -1. -/
def pyFind (t : String) (c : Char) : Int :=
  match t.toList.indexOf? c with
  | some i => (i : Int)
  | none => -1

/-- Python str.rfind: index of the last occurrence of `c`, or -1. -/
def pyRFind (t : String) (c : Char) : Int :=
  match t.toList.reverse.indexOf? c with
  | some i => ((t.toList.length - 1 - i : Nat) : Int)
  | none => -1

/-- Python str.strip on a character list: drop leading and trailing
whitespace. -/
def pyStripList (l : List Char) : List Char :=
  ((l.dropWhile Char.isWhitespace).reverse.dropWhile Char.isWhitespace).reverse

/-- Python str.strip: drop leading and trailing whitespace. -/
def pyStrip (s : String) : String := String.mk (pyStripList s.toList)

/-- Python str.split('\n') on a character list: the segments between
newline characters (an empty input gives one empty segment, as in
Python). -/
def splitLinesAux : List Char → List (List Char)
  | [] => [[]]
  | c :: rest =>
    if c = '\n' then [] :: splitLinesAux rest
    else match splitLinesAux rest with
      | [] => [[c]]
      | w :: ws => (c :: w) :: ws

/-- Python str.split('\n'). -/
def splitLines (s : String) : List String := (splitLinesAux s.toList).map String.mk

/-- Python slice t[a:b] for 0 ≤ a ≤ b (clamped at the ends like Python). -/
def pySlice (t : String) (a b : Nat) : String :=
  String.mk ((t.toList.drop a).take (b - a))

/-- Strategy (c) of _safe_json_parse (llm_chain.py lines 240-261): take the
substring from the first opening brace to the last closing brace, provided
start != -1 and end > start. -/
def braceExtract (t : String) : Option String :=
  let start := pyFind t '\x7b'
  let stop := pyRFind t '\x7d' + 1
  if start ≠ -1 ∧ stop > start then some (pySlice t start.toNat stop.toNat) else none

/-- PersonaLLMChain._safe_json_parse (llm_chain.py lines 197-271).
`loads` models json.loads (None for a JSONDecodeError); `fenced` models the
re.search for the first fenced code block whose captured group looks like a
JSON object.  Three strategies are tried in order, each falling through to
the next on failure; exhaustion raises the parse failure. -/
def safe_json_parse (loads : String → Option Json) (fenced : String → Option String)
    (text : String) : Except Err Json :=
  match loads text with
  | some v => .ok v
  | none =>
    match (fenced text).bind loads with
    | some v => .ok v
    | none =>
      match (braceExtract text).bind loads with
      | some v => .ok v
      | none => .error parseError

/-- PersonaLLMChain.step1_clean_text (llm_chain.py lines 77-133).  The chat
completion call is the parameter `llm1`; any failure is wrapped into the
"Text cleaning failed" condition. -/
def step1_clean_text (llm1 : String → Except Err String) (raw_text : String) :
    Except Err String :=
  match llm1 raw_text with
  | .ok s => .ok s
  | .error e => .error (e.wrap "Text cleaning failed: ")

/-- PersonaLLMChain.step2_populate_persona (llm_chain.py lines 135-195).
The chat completion call is `llm2`; its output text goes through
safe_json_parse, and any failure is wrapped into the "Persona generation
failed" condition. -/
def step2_populate_persona (llm2 : String → Except Err String)
    (loads : String → Option Json) (fenced : String → Option String)
    (cleaned_text : String) : Except Err Json :=
  match llm2 cleaned_text with
  | .error e => .error (e.wrap "Persona generation failed: ")
  | .ok persona_text =>
    match safe_json_parse loads fenced persona_text with
    | .ok v => .ok v
    | .error e => .error (e.wrap "Persona generation failed: ")

/-- The _meta sub-object attached by generate_persona
(llm_chain.py lines 310-314). -/
def metaObj (rawLen cleanedLen : Nat) (model : String) : Json :=
  .obj [("raw_text_length", .num rawLen), ("cleaned_text_length", .num cleanedLen),
        ("model_used", .str model)]

/-- Python dict item assignment d[key] = v: replace the value when the key
exists, otherwise append the pair. -/
def setField (fields : List (String × Json)) (key : String) (v : Json) :
    List (String × Json) :=
  if fields.any (fun p => p.1 == key) then
    fields.map (fun p => if p.1 == key then (key, v) else p)
  else fields ++ [(key, v)]

/-- The statement persona["_meta"] = ... in generate_persona
(llm_chain.py line 310): succeeds on a dict, raises TypeError on any other
JSON value (e.g. a bare list or number). -/
def attachMeta (persona : Json) (rawLen cleanedLen : Nat) (model : String) :
    Except Err Json :=
  match persona with
  | .obj fields => .ok (.obj (setField fields "_meta" (metaObj rawLen cleanedLen model)))
  | _ => .error (.typeError "persona document does not support item assignment")

/-- PersonaLLMChain.generate_persona (llm_chain.py lines 273-331): step 1,
then step 2 on its output, then metadata attachment.  The surrounding
except clause re-raises unchanged, so step errors and the TypeError
propagate as they are. -/
def generate_persona (llm1 llm2 : String → Except Err String)
    (loads : String → Option Json) (fenced : String → Option String)
    (model raw_text : String) : Except Err Json :=
  match step1_clean_text llm1 raw_text with
  | .error e => .error e
  | .ok cleaned_text =>
    match step2_populate_persona llm2 loads fenced cleaned_text with
    | .error e => .error e
    | .ok persona => attachMeta persona raw_text.length cleaned_text.length model

/-- A row of the person_data table (app/models/person_data.py): immutable
submission record.  Identifiers and timestamps are modelled as naturals. -/
structure PersonDataRow where
  id : Nat
  person_id : Nat
  raw_text : String
  source : String
  created_at : Nat
deriving Repr, DecidableEq

/-- A row of the personas table in the person-aggregate schema
(app/models/persona.py): at most one row per person, carrying the computed
document, the lineage list and the version. -/
structure PersonaRow where
  id : Nat
  person_id : Nat
  persona : Json
  computed_from_data_ids : List Nat
  version : Nat
  created_at : Nat
  updated_at : Nat

/-- The relational store used by the person aggregate: the persons table
(just ids here), the append-only person_data table and the personas table.
`nextId` generates fresh row ids and `now` is the store clock assigning
created_at timestamps. -/
structure Db where
  persons : List Nat
  person_data : List PersonDataRow
  personas : List PersonaRow
  nextId : Nat
  now : Nat

/-- All person_data rows belonging to a person, in insertion order. -/
def dataForPerson (db : Db) (pid : Nat) : List PersonDataRow :=
  db.person_data.filter (fun r => r.person_id == pid)

/-- PersonDataRepository.get_all_for_person_unordered
(person_data_repo.py lines 170-207): select all rows for the person with
order("created_at", desc=False), i.e. oldest first. -/
def get_all_for_person_unordered (db : Db) (pid : Nat) : List PersonDataRow :=
  (dataForPerson db pid).mergeSort (fun a b => decide (a.created_at ≤ b.created_at))

/-- PersonaRepository.get_by_person_id (persona_repo.py lines 313-353):
the current persona for a person, None when absent. -/
def get_by_person_id (db : Db) (pid : Nat) : Option PersonaRow :=
  db.personas.find? (fun r => r.person_id == pid)

/-- The version of the person's current persona, if any. -/
def versionOf (db : Db) (pid : Nat) : Option Nat :=
  (get_by_person_id db pid).map (fun r => r.version)

/-- PersonaRepository.create_for_person (persona_repo.py lines 355-409):
insert a fresh personas row with the given document, lineage and version. -/
def create_for_person (db : Db) (pid : Nat) (doc : Json) (data_ids : List Nat)
    (version : Nat) : Db × PersonaRow :=
  let row : PersonaRow :=
    { id := db.nextId, person_id := pid, persona := doc,
      computed_from_data_ids := data_ids, version := version,
      created_at := db.now, updated_at := db.now }
  ({ db with personas := db.personas ++ [row], nextId := db.nextId + 1, now := db.now + 1 },
   row)

/-- The column update applied by PersonaRepository.update_by_person_id
(persona_repo.py lines 441-445): new document, new lineage, new version,
store-refreshed updated_at; id, person_id and created_at untouched. -/
def applyPersonaUpdate (doc : Json) (data_ids : List Nat) (version now : Nat)
    (r : PersonaRow) : PersonaRow :=
  { r with persona := doc, computed_from_data_ids := data_ids,
           version := version, updated_at := now }

/-- PersonaRepository.upsert (persona_repo.py lines 470-510): check whether
a persona row exists for the person, then update it in place
(update_by_person_id) or insert a new one (create_for_person).  The
not-found raise inside update_by_person_id is unreachable here because
upsert has just observed the row. -/
def upsert (db : Db) (pid : Nat) (doc : Json) (data_ids : List Nat)
    (version : Nat) : Db × PersonaRow :=
  match get_by_person_id db pid with
  | some existing =>
    ({ db with
        personas := db.personas.map (fun r =>
          if r.person_id == pid then applyPersonaUpdate doc data_ids version db.now r else r),
        now := db.now + 1 },
     applyPersonaUpdate doc data_ids version db.now existing)
  | none => create_for_person db pid doc data_ids version

/-- Timestamp rendering (datetime.isoformat) for the separator header. -/
def isoformat (t : Nat) : String := toString t

/-- The separator header built in PersonService._concatenate_person_data
(person_service.py line 390) for the i-th submission (1-based). -/
def submissionHeader (i : Nat) (created_at : Nat) : String :=
  "\n--- Data Submission #" ++ toString i ++ " (submitted " ++ isoformat created_at ++ ") ---\n"

/-- The parts list built by the enumerate(submissions, 1) loop of
_concatenate_person_data: header then raw_text for each submission, with
`i` the running 1-based sequence number. -/
def concatPartsFrom (i : Nat) : List PersonDataRow → List String
  | [] => []
  | s :: rest => submissionHeader i s.created_at :: s.raw_text :: concatPartsFrom (i + 1) rest

/-- PersonService._concatenate_person_data (person_service.py lines
375-396): join the parts with "".join(parts). -/
def concatenate_person_data (submissions : List PersonDataRow) : String :=
  String.join (concatPartsFrom 1 submissions)

/-- PersonDataRepository.create (person_data_repo.py lines 26-81): append
one immutable person_data row; the store assigns id and created_at. -/
def person_data_create (db : Db) (pid : Nat) (raw_text source : String) :
    PersonDataRow × Db :=
  let row : PersonDataRow :=
    { id := db.nextId, person_id := pid, raw_text := raw_text,
      source := source, created_at := db.now }
  (row, { db with person_data := db.person_data ++ [row],
                  nextId := db.nextId + 1, now := db.now + 1 })

/-- PersonService.recompute_persona (person_service.py lines 304-373).
`gen` is the llm_chain.generate_persona collaborator.  Fetch all data rows
(oldest first), return None when there are none, concatenate, call the LLM,
read the current persona to compute the next version, collect the full
lineage and upsert.  Any exception is re-raised as the wrapped
"Failed to recompute persona" condition; an LLM failure happens before any
persona write, so the store is unchanged on that path. -/
def recompute_persona (gen : String → Except Err Json) (db : Db) (pid : Nat) :
    Db × Except Err (Option PersonaRow) :=
  let all_data := get_all_for_person_unordered db pid
  if all_data.isEmpty then (db, .ok none)
  else
    match gen (concatenate_person_data all_data) with
    | .error e => (db, .error (e.wrap "Failed to recompute persona: "))
    | .ok persona_json =>
      let new_version :=
        match get_by_person_id db pid with
        | some current => current.version + 1
        | none => 1
      let data_ids := all_data.map (fun r => r.id)
      let res := upsert db pid persona_json data_ids new_version
      (res.1, .ok (some res.2))

/-- PersonService.add_person_data_and_regenerate (person_service.py lines
212-260): verify the person exists, append the submission, recompute the
persona and return both; a recompute returning None or raising is re-raised
to the caller while the appended row stays in the store. -/
def add_person_data_and_regenerate (gen : String → Except Err Json) (db : Db)
    (pid : Nat) (raw_text source : String) :
    Db × Except Err (PersonDataRow × PersonaRow) :=
  if pid ∈ db.persons then
    let sub := person_data_create db pid raw_text source
    let res := recompute_persona gen sub.2 pid
    match res.2 with
    | .ok (some persona) => (res.1, .ok (sub.1, persona))
    | .ok none =>
      (res.1, .error (.upstream ("Failed to regenerate persona for person " ++ toString pid)))
    | .error e => (res.1, .error e)
  else (db, .error (.notFound ("Person not found: " ++ toString pid)))

/-- n successive recompute_persona calls for one person, threading the
store; models a sequence of recompute calls with no interleaving. -/
def iterateRecompute (gen : String → Except Err Json) (db : Db) (pid : Nat) :
    Nat → Db
  | 0 => db
  | n + 1 => (recompute_persona gen (iterateRecompute gen db pid n) pid).1

/-- A row of the personas table as used by the legacy persona CRUD path
(PersonaSynthesizer / PersonaService): raw_text plus the generated
document. -/
structure PersonaRec where
  id : Nat
  raw_text : String
  persona : Json
  created_at : Nat
  updated_at : Nat

/-- The personas table seen by the legacy persona service. -/
abbrev PersonaStore := List PersonaRec

/-- PersonaRepository.read (persona_repo.py lines 114-150): select by id,
None when absent. -/
def repo_read (store : PersonaStore) (persona_id : Nat) : Option PersonaRec :=
  store.find? (fun r => r.id == persona_id)

/-- PersonaSynthesizer.get_persona (persona_synthesizer.py lines 132-159):
read by id, raise "Persona not found" when absent, wrapped by the
surrounding except clause. -/
def synth_get_persona (store : PersonaStore) (persona_id : Nat) :
    Except Err PersonaRec :=
  match repo_read store persona_id with
  | some p => .ok p
  | none =>
    .error ((Err.notFound ("Persona not found: " ++ toString persona_id)).wrap
      "Failed to retrieve persona: ")

/-- The column update applied by PersonaRepository.update for a
PersonaUpdate carrying raw_text and persona; updated_at is refreshed by
the store. -/
def applyRecUpdate (raw_text : String) (doc : Json) (now : Nat) (r : PersonaRec) :
    PersonaRec :=
  { r with raw_text := raw_text, persona := doc, updated_at := now }

/-- PersonaRepository.update restricted to the fields PersonaSynthesizer
passes (persona_repo.py lines 199-245): update the matching row and return
it, None (a "Persona not found" raise upstream) when the id is absent. -/
def repo_update (store : PersonaStore) (persona_id : Nat) (raw_text : String)
    (doc : Json) (now : Nat) : PersonaStore × Option PersonaRec :=
  match repo_read store persona_id with
  | none => (store, none)
  | some existing =>
    (store.map (fun r =>
       if r.id == persona_id then applyRecUpdate raw_text doc now r else r),
     some (applyRecUpdate raw_text doc now existing))

/-- PersonaSynthesizer.regenerate_persona (persona_synthesizer.py lines
85-130): generate the new document from the new text (`gen` is
llm_chain.generate_persona), then update the row; failures are wrapped
into "Failed to regenerate persona".  The LLM call precedes the update, so
a generation failure leaves the store unchanged. -/
def synth_regenerate_persona (gen : String → Except Err Json)
    (store : PersonaStore) (persona_id : Nat) (new_raw_text : String) (now : Nat) :
    PersonaStore × Except Err PersonaRec :=
  match gen new_raw_text with
  | .error e => (store, .error (e.wrap "Failed to regenerate persona: "))
  | .ok doc =>
    match repo_update store persona_id new_raw_text doc now with
    | (store1, some row) => (store1, .ok row)
    | (store1, none) =>
      (store1, .error ((Err.notFound ("Persona not found: " ++ toString persona_id)).wrap
        "Failed to regenerate persona: "))

/-- PersonaSynthesizer.delete_persona (persona_synthesizer.py lines
187-215) over PersonaRepository.delete: remove the row, report whether it
existed. -/
def synth_delete_persona (store : PersonaStore) (persona_id : Nat) :
    PersonaStore × Bool :=
  (store.filter (fun r => !(r.id == persona_id)), (repo_read store persona_id).isSome)

/-- The default combined text of PersonaService.merge_personas
(persona_service.py line 146) when merged_raw_text is not supplied. -/
def mergedTextDefault (p1 p2 : PersonaRec) : String :=
  p1.raw_text ++ "\n\n---\n\n" ++ p2.raw_text

/-- PersonaService.merge_personas (persona_service.py lines 116-164):
fetch both personas, combine the raw texts when no merged text is given,
regenerate persona 1 from the combined text, then delete persona 2.  Every
failure is wrapped into "Failed to merge personas" and aborts before the
deletion step it precedes. -/
def merge_personas (gen : String → Except Err Json) (store : PersonaStore)
    (persona_id_1 persona_id_2 : Nat) (merged_raw_text : Option String) (now : Nat) :
    PersonaStore × Except Err PersonaRec :=
  match synth_get_persona store persona_id_1 with
  | .error e => (store, .error (e.wrap "Failed to merge personas: "))
  | .ok p1 =>
    match synth_get_persona store persona_id_2 with
    | .error e => (store, .error (e.wrap "Failed to merge personas: "))
    | .ok p2 =>
      let merged := merged_raw_text.getD (mergedTextDefault p1 p2)
      match synth_regenerate_persona gen store persona_id_1 merged now with
      | (store1, .error e) => (store1, .error (e.wrap "Failed to merge personas: "))
      | (store1, .ok mergedPersona) =>
        ((synth_delete_persona store1 persona_id_2).1, .ok mergedPersona)

/-- PersonaRepository.read_all (persona_repo.py lines 152-197): total
count, then a page ordered by created_at descending. -/
def repo_read_all (store : PersonaStore) (limit offset : Nat) :
    List PersonaRec × Nat :=
  (((store.mergeSort (fun a b => decide (b.created_at ≤ a.created_at))).drop offset).take limit,
   store.length)

/-- The export payload assembled by PersonaService.export_personas. -/
structure ExportData where
  export_format : String
  exported_at : Nat
  total_exported : Nat
  total_in_system : Nat
  personas : List PersonaRec

/-- PersonaService.export_personas (persona_service.py lines 306-343):
reject any format other than "json" before the storage read, otherwise
list the personas and assemble the payload.  The unsupported-format raise
is caught by the method's own except clause and re-raised with the
"Failed to export personas" wrapper. -/
def export_personas (store : PersonaStore) (format : String) (limit now : Nat) :
    Except Err ExportData :=
  if format ≠ "json" then
    .error ((Err.validation ("Unsupported export format: " ++ format)).wrap
      "Failed to export personas: ")
  else
    let res := repo_read_all store limit 0
    .ok { export_format := format, exported_at := now,
          total_exported := res.1.length, total_in_system := res.2,
          personas := res.1 }

/-- A parsed HTML document for the URL fetcher: text nodes and elements,
standing for the BeautifulSoup node tree. -/
inductive HtmlNode where
  | textNode (s : String)
  | elem (tag : String) (children : List HtmlNode)

mutual

/-- The strings BeautifulSoup.get_text visits in a node after the
_extract_text loop has decomposed every script and style element
(url_fetcher.py lines 166-168). -/
def nodeTexts : HtmlNode → List String
  | .textNode s => [s]
  | .elem tag cs => if tag == "script" || tag == "style" then [] else nodesTexts cs

/-- nodeTexts over a list of sibling nodes, in document order. -/
def nodesTexts : List HtmlNode → List String
  | [] => []
  | n :: rest => nodeTexts n ++ nodesTexts rest

end

/-- soup.get_text(separator='\n', strip=True) (url_fetcher.py line 171):
each visited string stripped, whitespace-only strings dropped, the rest
joined by newlines. -/
def bs_get_text (doc : List HtmlNode) : String :=
  String.intercalate "\n" (((nodesTexts doc).map pyStrip).filter (fun s => !(s == "")))

/-- URLFetcher._extract_text (url_fetcher.py lines 149-181): get_text on
the script/style-free tree, then strip each line and drop empty lines. -/
def extract_text (doc : List HtmlNode) : String :=
  String.intercalate "\n"
    (((splitLines (bs_get_text doc)).map pyStrip).filter (fun l => !(l == "")))

/-- The per-URL failure modes of URLFetcher.fetch_url (url_fetcher.py
lines 99-112): timeout, invalid URL, HTTP status error, oversize content,
generic request error. -/
inductive URLFetchErr where
  | timeoutErr (msg : String)
  | invalidURL (msg : String)
  | httpStatusErr (code : Nat)
  | sizeExceeded (len : Nat)
  | requestErr (msg : String)
deriving Repr, DecidableEq

/-- URLFetcher.fetch_url (url_fetcher.py lines 58-112).  `net` models the
network round trip including the timeout, status and content-size checks:
it yields either a failure or the parsed HTML body, which is then passed
through _extract_text. -/
def fetch_url (net : String → Except URLFetchErr (List HtmlNode)) (url : String) :
    Except URLFetchErr String :=
  match net url with
  | .error e => .error e
  | .ok html => .ok (extract_text html)

/-- One iteration of the fetch_multiple loop (url_fetcher.py lines
130-137): the content a URL contributes — its extracted text when the
fetch succeeded and the text is non-blank, nothing otherwise. -/
def fetchContent (net : String → Except URLFetchErr (List HtmlNode)) (url : String) :
    Option String :=
  match fetch_url net url with
  | .ok content => if pyStrip content == "" then none else some content
  | .error _ => none

/-- URLFetcher.fetch_multiple (url_fetcher.py lines 114-147): gather the
contributed contents in order, raise when none contributed, otherwise join
them with the separator. -/
def fetch_multiple (net : String → Except URLFetchErr (List HtmlNode))
    (urls : List String) : Except URLFetchErr String :=
  let contents := urls.filterMap (fetchContent net)
  if contents.isEmpty then
    .error (.requestErr ("Failed to fetch content from all " ++ toString urls.length ++ " URLs"))
  else .ok (String.intercalate "\n\n---\n\n" contents)

/-- A concrete network for witnessing the URL-fetch theorem: one URL
succeeds with a small HTML body, every other URL returns HTTP 404. -/
def wNet : String → Except URLFetchErr (List HtmlNode) :=
  fun u => if u == "a" then .ok [HtmlNode.textNode "Alpha"] else .error (.httpStatusErr 404)

/-- A concrete json.loads stand-in for witnessing the non-object
passthrough theorem: it decodes the text "[1]" to a bare array. -/
def wLoads : String → Option Json :=
  fun s => if s == "[1]" then some (.arr [.num 1]) else none

/-- Witness inputs for the version-sequence theorem: one person with one
data submission and no persona yet, and an always-succeeding LLM. -/
def wDb1 : Db :=
  { persons := [1],
    person_data := [{ id := 10, person_id := 1, raw_text := "alpha", source := "api", created_at := 0 }],
    personas := [], nextId := 11, now := 1 }

/-- Witness LLM for the version-sequence theorem. -/
def wGen1 : String → Except Err Json := fun _ => .ok (.obj [])

/-- Witness inputs for the lineage theorem. -/
def wDb2 : Db :=
  { persons := [2],
    person_data := [{ id := 20, person_id := 2, raw_text := "beta", source := "api", created_at := 0 }],
    personas := [], nextId := 21, now := 1 }

/-- Witness LLM for the lineage theorem. -/
def wGen2 : String → Except Err Json := fun _ => .ok (.obj [])

/-- The persona row recompute_persona writes on the lineage witness. -/
def wRow2 : PersonaRow :=
  { id := 21, person_id := 2, persona := .obj [], computed_from_data_ids := [20],
    version := 1, created_at := 1, updated_at := 1 }

/-- Witness inputs for the error-handling theorem: a failing LLM. -/
def wDb3 : Db := { persons := [3], person_data := [], personas := [], nextId := 5, now := 0 }

/-- Witness LLM for the error-handling theorem: always raises. -/
def wGen3 : String → Except Err Json := fun _ => .error (.upstream "boom")

/-- First persona record for the merge-effect witness. -/
def wRec6a : PersonaRec :=
  { id := 1, raw_text := "A", persona := .null, created_at := 0, updated_at := 0 }

/-- Second persona record for the merge-effect witness. -/
def wRec6b : PersonaRec :=
  { id := 2, raw_text := "B", persona := .null, created_at := 0, updated_at := 0 }

/-- Witness store for the merge-effect theorem: two personas. -/
def wStore6 : PersonaStore := [wRec6a, wRec6b]

/-- Witness LLM for the merge-effect theorem: always succeeds. -/
def wGen6 : String → Except Err Json := fun _ => .ok (.obj [])

/-- First persona record for the merge-atomicity witness. -/
def wRec9a : PersonaRec :=
  { id := 7, raw_text := "C", persona := .null, created_at := 0, updated_at := 0 }

/-- Second persona record for the merge-atomicity witness. -/
def wRec9b : PersonaRec :=
  { id := 8, raw_text := "D", persona := .null, created_at := 0, updated_at := 0 }

/-- Witness store for the merge-atomicity theorem: two personas. -/
def wStore9 : PersonaStore := [wRec9a, wRec9b]

/-- Witness LLM for the merge-atomicity theorem: always raises. -/
def wGen9 : String → Except Err Json := fun _ => .error (.upstream "llm down")

/-- Witness extra row for the concatenation theorem. -/
def wD4 : PersonDataRow :=
  { id := 11, person_id := 1, raw_text := "beta", source := "api", created_at := 3 }

/-- find? commutes with an update that rewrites exactly the matching
elements, provided the update preserves the predicate. -/
theorem find?_map_ite {α : Type} (p : α → Bool) (f : α → α)
    (hf : ∀ a, p (f a) = p a) :
    ∀ (l : List α) (e : α), l.find? p = some e →
      (l.map (fun a => if p a then f a else a)).find? p = some (f e) := by
  intro l
  induction l with
  | nil => intro e h; simp [List.find?] at h
  | cons a rest ih =>
    intro e h
    by_cases hpa : p a = true
    · rw [List.find?_cons_of_pos _ hpa] at h
      obtain rfl : a = e := by injection h
      simp only [List.map_cons, if_pos hpa]
      exact List.find?_cons_of_pos _ (by rw [hf]; exact hpa)
    · rw [List.find?_cons_of_neg _ hpa] at h
      simp only [List.map_cons, if_neg hpa]
      rw [List.find?_cons_of_neg _ hpa]
      exact ih e h

/-- find? skips a first block with no match. -/
theorem find?_append_none {α : Type} (p : α → Bool) (l₁ l₂ : List α)
    (h : l₁.find? p = none) : (l₁ ++ l₂).find? p = l₂.find? p := by
  induction l₁ with
  | nil => rfl
  | cons a rest ih =>
    by_cases hpa : p a = true
    · rw [List.find?_cons_of_pos _ hpa] at h; exact absurd h (by simp)
    · rw [List.find?_cons_of_neg _ hpa] at h
      rw [List.cons_append, List.find?_cons_of_neg _ hpa]
      exact ih h

/-- Filtering by a predicate implied by the search predicate does not
change the result of find?. -/
theorem find?_filter_keep {α : Type} (p q : α → Bool)
    (himp : ∀ a, p a = true → q a = true) :
    ∀ l : List α, (l.filter q).find? p = l.find? p := by
  intro l
  induction l with
  | nil => rfl
  | cons a rest ih =>
    by_cases hqa : q a = true
    · rw [List.filter_cons_of_pos hqa]
      by_cases hpa : p a = true
      · rw [List.find?_cons_of_pos _ hpa, List.find?_cons_of_pos _ hpa]
      · rw [List.find?_cons_of_neg _ hpa, List.find?_cons_of_neg _ hpa]; exact ih
    · rw [List.filter_cons_of_neg hqa]
      have hpa : ¬ p a = true := fun hp => hqa (himp a hp)
      rw [List.find?_cons_of_neg _ hpa]
      exact ih

/-- String.join distributes over cons. -/
theorem string_join_cons (s : String) (rest : List String) :
    String.join (s :: rest) = s ++ String.join rest := by
  have aux : ∀ (l : List String) (a : String),
      List.foldl (fun r t => r ++ t) a l = a ++ List.foldl (fun r t => r ++ t) "" l := by
    intro l
    induction l with
    | nil => intro a; simp [String.append_empty]
    | cons t ts ih =>
      intro a
      simp only [List.foldl]
      rw [ih (a ++ t), ih ("" ++ t), String.empty_append, String.append_assoc]
  simp only [String.join, List.foldl]
  rw [aux rest ("" ++ s), String.empty_append]

/-- String.join distributes over append. -/
theorem string_join_append (a b : List String) :
    String.join (a ++ b) = String.join a ++ String.join b := by
  induction a with
  | nil => simp [String.join, String.empty_append]
  | cons s rest ih =>
    rw [List.cons_append, string_join_cons, string_join_cons, ih, String.append_assoc]

/-- Upserting a persona never touches the person_data table. -/
theorem upsert_person_data (db : Db) (pid : Nat) (doc : Json) (ids : List Nat)
    (v : Nat) : (upsert db pid doc ids v).1.person_data = db.person_data := by
  unfold upsert create_for_person
  cases h : get_by_person_id db pid <;> rfl

/-- The persona row returned by upsert carries exactly the requested
version and lineage. -/
theorem upsert_row_fields (db : Db) (pid : Nat) (doc : Json) (ids : List Nat)
    (v : Nat) :
    (upsert db pid doc ids v).2.version = v ∧
    (upsert db pid doc ids v).2.computed_from_data_ids = ids := by
  unfold upsert create_for_person applyPersonaUpdate
  cases h : get_by_person_id db pid <;> exact ⟨rfl, rfl⟩

/-- After an upsert, the person's current persona is the row the upsert
returned. -/
theorem get_by_person_id_upsert (db : Db) (pid : Nat) (doc : Json)
    (ids : List Nat) (v : Nat) :
    get_by_person_id (upsert db pid doc ids v).1 pid = some (upsert db pid doc ids v).2 := by
  unfold upsert
  cases h : get_by_person_id db pid with
  | some existing =>
    show List.find? (fun r => r.person_id == pid)
        (db.personas.map (fun r =>
          if r.person_id == pid then applyPersonaUpdate doc ids v db.now r else r)) =
      some (applyPersonaUpdate doc ids v db.now existing)
    exact find?_map_ite (fun r : PersonaRow => r.person_id == pid)
      (applyPersonaUpdate doc ids v db.now) (fun r => rfl) db.personas existing h
  | none =>
    show List.find? (fun r => r.person_id == pid)
        (db.personas ++ [(create_for_person db pid doc ids v).2]) =
      some (create_for_person db pid doc ids v).2
    rw [find?_append_none _ _ _ h]
    simp [List.find?, create_for_person]

/-- recompute_persona never touches the person_data table. -/
theorem recompute_person_data (gen : String → Except Err Json) (db : Db)
    (pid : Nat) : (recompute_persona gen db pid).1.person_data = db.person_data := by
  unfold recompute_persona
  by_cases h : (get_all_for_person_unordered db pid).isEmpty = true
  · simp [h]
  · simp only [h, Bool.false_eq_true, if_false]
    cases hg : gen (concatenate_person_data (get_all_for_person_unordered db pid)) with
    | error e => simp [hg]
    | ok doc => simp [hg, upsert_person_data]

/-- A recompute_persona call that raises leaves the store unchanged. -/
theorem recompute_error_state (gen : String → Except Err Json) (db : Db)
    (pid : Nat) (e : Err) (h : (recompute_persona gen db pid).2 = .error e) :
    (recompute_persona gen db pid).1 = db := by
  unfold recompute_persona at h ⊢
  by_cases hd : (get_all_for_person_unordered db pid).isEmpty = true
  · simp [hd]
  · simp only [hd, Bool.false_eq_true, if_false] at h ⊢
    cases hg : gen (concatenate_person_data (get_all_for_person_unordered db pid)) with
    | error e2 => simp [hg]
    | ok doc => simp [hg] at h

/-- A person with data rows also has rows in the sorted recompute query. -/
theorem get_all_isEmpty_false (db : Db) (pid : Nat)
    (h : dataForPerson db pid ≠ []) :
    (get_all_for_person_unordered db pid).isEmpty = false := by
  rw [List.isEmpty_eq_false]
  intro hnil
  have hp := (List.mergeSort_perm (dataForPerson db pid)
    (fun a b => decide (a.created_at ≤ b.created_at))).symm
  rw [get_all_for_person_unordered] at hnil
  rw [hnil] at hp
  exact h hp.eq_nil

/-- A successful recompute writes version current+1, or 1 when no persona
row existed. -/
theorem recompute_success_version (gen : String → Except Err Json) (db : Db)
    (pid : Nat) (hdata : dataForPerson db pid ≠ [])
    (hok : ∃ doc, gen (concatenate_person_data (get_all_for_person_unordered db pid)) = .ok doc) :
    versionOf (recompute_persona gen db pid).1 pid =
      some (match versionOf db pid with | some k => k + 1 | none => 1) := by
  obtain ⟨doc, hdoc⟩ := hok
  unfold recompute_persona
  simp only [get_all_isEmpty_false db pid hdata, Bool.false_eq_true, if_false, hdoc]
  simp only [versionOf, get_by_person_id_upsert, Option.map_some']
  rw [(upsert_row_fields _ _ _ _ _).1]
  cases h : get_by_person_id db pid <;> simp [h]

/-- C1: recompute_persona assigns version current+1 when a persona row
exists and 1 otherwise, and across any sequence of successful recompute
calls for one person starting with no persona the stored versions are
exactly 1, 2, 3, ... with no gaps. -/
theorem recompute_persona_version_sequence (gen : String → Except Err Json)
    (db : Db) (pid : Nat)
    (hdata : dataForPerson db pid ≠ [])
    (hgen : ∀ s, ∃ doc, gen s = .ok doc)
    (hnone : get_by_person_id db pid = none) :
    (∀ d : Db, dataForPerson d pid ≠ [] →
      versionOf (recompute_persona gen d pid).1 pid =
        some (match versionOf d pid with | some k => k + 1 | none => 1)) ∧
    (∀ n : Nat, versionOf (iterateRecompute gen db pid n) pid =
      if n = 0 then none else some n) := by
  have hstep : ∀ d : Db, dataForPerson d pid ≠ [] →
      versionOf (recompute_persona gen d pid).1 pid =
        some (match versionOf d pid with | some k => k + 1 | none => 1) :=
    fun d hd => recompute_success_version gen d pid hd (hgen _)
  refine ⟨hstep, ?_⟩
  have hpres : ∀ n, dataForPerson (iterateRecompute gen db pid n) pid = dataForPerson db pid := by
    intro n
    induction n with
    | zero => rfl
    | succ n ih =>
      show dataForPerson (recompute_persona gen (iterateRecompute gen db pid n) pid).1 pid = _
      unfold dataForPerson
      rw [recompute_person_data]
      exact ih
  intro n
  induction n with
  | zero => simp [iterateRecompute, versionOf, hnone]
  | succ n ih =>
    have hd : dataForPerson (iterateRecompute gen db pid n) pid ≠ [] := by
      rw [hpres]; exact hdata
    have hv := hstep (iterateRecompute gen db pid n) hd
    show versionOf (recompute_persona gen (iterateRecompute gen db pid n) pid).1 pid = _
    rw [hv, ih]
    cases n with
    | zero => simp
    | succ m => simp

/-- Witness for C1: one person, one submission, an always-succeeding LLM;
after 2 recompute calls the stored version is 2. -/
theorem recompute_persona_version_sequence_witness :
    (dataForPerson wDb1 1 ≠ [] ∧ (∀ s, ∃ doc, wGen1 s = .ok doc) ∧
      get_by_person_id wDb1 1 = none) ∧
    versionOf (iterateRecompute wGen1 wDb1 1 2) 1 = (if 2 = 0 then none else some 2) :=
  ⟨⟨by decide, fun _ => ⟨.obj [], rfl⟩, rfl⟩,
   (recompute_persona_version_sequence wGen1 wDb1 1 (by decide)
     (fun _ => ⟨.obj [], rfl⟩) rfl).2 2⟩

/-- C2: every successful recompute stores computed_from_data_ids equal to
the ids of all the person's data rows at computation time — the full set,
never a subset or delta, regardless of prior recomputations. -/
theorem recompute_persona_full_lineage (gen : String → Except Err Json)
    (db : Db) (pid : Nat) (row : PersonaRow)
    (h : (recompute_persona gen db pid).2 = .ok (some row)) :
    row.computed_from_data_ids = (get_all_for_person_unordered db pid).map (fun r => r.id) ∧
    (∀ i, i ∈ row.computed_from_data_ids ↔ i ∈ (dataForPerson db pid).map (fun r => r.id)) := by
  unfold recompute_persona at h
  by_cases he : (get_all_for_person_unordered db pid).isEmpty = true
  · simp [he] at h
  · simp only [he, Bool.false_eq_true, if_false] at h
    cases hg : gen (concatenate_person_data (get_all_for_person_unordered db pid)) with
    | error e => rw [hg] at h; simp at h
    | ok doc =>
      rw [hg] at h
      simp only [Except.ok.injEq, Option.some.injEq] at h
      have hrow : row.computed_from_data_ids =
          (get_all_for_person_unordered db pid).map (fun r => r.id) := by
        rw [← h]
        exact (upsert_row_fields _ _ _ _ _).2
      refine ⟨hrow, fun i => ?_⟩
      rw [hrow]
      exact ((List.mergeSort_perm (dataForPerson db pid)
        (fun a b => decide (a.created_at ≤ b.created_at))).map (fun r => r.id)).mem_iff

/-- Witness for C2: the recompute on the concrete store succeeds and its
lineage is exactly the single data id 20. -/
theorem recompute_persona_full_lineage_witness :
    (recompute_persona wGen2 wDb2 2).2 = .ok (some wRow2) ∧
    wRow2.computed_from_data_ids = (get_all_for_person_unordered wDb2 2).map (fun r => r.id) ∧
    (∀ i, i ∈ wRow2.computed_from_data_ids ↔ i ∈ (dataForPerson wDb2 2).map (fun r => r.id)) := by
  have hall : get_all_for_person_unordered wDb2 2 =
      [{ id := 20, person_id := 2, raw_text := "beta", source := "api", created_at := 0 }] := by
    simp [get_all_for_person_unordered, dataForPerson, wDb2]
  have hrec : (recompute_persona wGen2 wDb2 2).2 = .ok (some wRow2) := by
    unfold recompute_persona
    rw [hall]
    rfl
  exact ⟨hrec, recompute_persona_full_lineage wGen2 wDb2 2 wRow2 hrec⟩

/-- C3: when recomputation fails inside add_person_data_and_regenerate the
error propagates to the caller, the newly appended PersonData row stays in
the store, and the personas table — hence the prior persona and its
version — is unchanged, because the LLM call precedes any persona write. -/
theorem add_person_data_and_regenerate_error_handling
    (gen : String → Except Err Json) (db : Db) (pid : Nat)
    (raw_text source : String) (e : Err)
    (hp : pid ∈ db.persons)
    (hfail : (recompute_persona gen (person_data_create db pid raw_text source).2 pid).2 = .error e) :
    add_person_data_and_regenerate gen db pid raw_text source =
      ((person_data_create db pid raw_text source).2, .error e) ∧
    (person_data_create db pid raw_text source).1 ∈
      (person_data_create db pid raw_text source).2.person_data ∧
    (person_data_create db pid raw_text source).2.personas = db.personas := by
  refine ⟨?_, ?_, rfl⟩
  · unfold add_person_data_and_regenerate
    rw [if_pos hp]
    simp only [hfail]
    rw [recompute_error_state gen _ pid e hfail]
  · unfold person_data_create
    simp

/-- Witness for C3: a failing LLM makes add_person_data_and_regenerate
raise while the appended row persists and no persona is written. -/
theorem add_person_data_and_regenerate_error_handling_witness :
    (3 ∈ wDb3.persons ∧
      (recompute_persona wGen3 (person_data_create wDb3 3 "hello" "api").2 3).2 =
        .error (.upstream "Failed to recompute persona: boom")) ∧
    add_person_data_and_regenerate wGen3 wDb3 3 "hello" "api" =
      ((person_data_create wDb3 3 "hello" "api").2,
        .error (.upstream "Failed to recompute persona: boom")) ∧
    (person_data_create wDb3 3 "hello" "api").1 ∈
      (person_data_create wDb3 3 "hello" "api").2.person_data ∧
    (person_data_create wDb3 3 "hello" "api").2.personas = wDb3.personas := by
  have hall : get_all_for_person_unordered (person_data_create wDb3 3 "hello" "api").2 3 =
      [{ id := 5, person_id := 3, raw_text := "hello", source := "api", created_at := 0 }] := by
    simp [get_all_for_person_unordered, dataForPerson, person_data_create, wDb3]
  have hrec : (recompute_persona wGen3 (person_data_create wDb3 3 "hello" "api").2 3).2 =
      .error (.upstream "Failed to recompute persona: boom") := by
    unfold recompute_persona
    rw [hall]
    rfl
  exact ⟨⟨by decide, hrec⟩,
    add_person_data_and_regenerate_error_handling wGen3 wDb3 3 "hello" "api"
      (.upstream "Failed to recompute persona: boom") (by decide) hrec⟩

/-- C4: the rows recompute_persona feeds to the LLM are all the person's
rows sorted by creation time ascending; the concatenation prepends to each
submission a header with its 1-based sequence number and timestamp, in
order, losing nothing, and the LLM is invoked on exactly this
deterministic text. -/
theorem recompute_persona_concatenation_spec (db : Db) (pid : Nat) :
    List.Pairwise (fun a b => a.created_at ≤ b.created_at)
      (get_all_for_person_unordered db pid) ∧
    (get_all_for_person_unordered db pid).Perm (dataForPerson db pid) ∧
    (∀ gen₁ gen₂ : String → Except Err Json,
      gen₁ (concatenate_person_data (get_all_for_person_unordered db pid)) =
        gen₂ (concatenate_person_data (get_all_for_person_unordered db pid)) →
      recompute_persona gen₁ db pid = recompute_persona gen₂ db pid) ∧
    concatenate_person_data [] = "" ∧
    (∀ (l : List PersonDataRow) (d : PersonDataRow),
      concatenate_person_data (l ++ [d]) =
        concatenate_person_data l ++
          (submissionHeader (l.length + 1) d.created_at ++ d.raw_text)) := by
  refine ⟨?_, List.mergeSort_perm _ _, ?_, rfl, ?_⟩
  · have hs := @List.sorted_mergeSort PersonDataRow
      (fun a b : PersonDataRow => decide (a.created_at ≤ b.created_at))
      (fun a b c hab hbc => by simp at hab hbc ⊢; omega)
      (fun a b => by simp [Nat.le_total])
      (dataForPerson db pid)
    exact hs.imp (fun h => by simpa using h)
  · intro gen₁ gen₂ hg
    simp only [recompute_persona]
    rw [hg]
  · have haux : ∀ (d : PersonDataRow) (l : List PersonDataRow) (i : Nat),
        concatPartsFrom i (l ++ [d]) =
          concatPartsFrom i l ++ [submissionHeader (i + l.length) d.created_at, d.raw_text] := by
      intro d l
      induction l with
      | nil => intro i; simp [concatPartsFrom]
      | cons s rest ih =>
        intro i
        show submissionHeader i s.created_at :: s.raw_text :: concatPartsFrom (i + 1) (rest ++ [d]) = _
        rw [ih (i + 1)]
        have : i + 1 + rest.length = i + (s :: rest).length := by simp; omega
        rw [this]
        rfl
    intro l d
    unfold concatenate_person_data
    rw [haux d l 1, string_join_append]
    have h2 : String.join [submissionHeader (1 + l.length) d.created_at, d.raw_text] =
        submissionHeader (l.length + 1) d.created_at ++ d.raw_text := by
      rw [string_join_cons, string_join_cons]
      rw [Nat.add_comm 1 l.length]
      simp [String.join, String.append_empty]
    rw [h2]

/-- Witness for C4: the append characterization evaluated on the concrete
one-row store, at a concrete extra row. -/
theorem recompute_persona_concatenation_spec_witness :
    concatenate_person_data ((dataForPerson wDb1 1) ++ [wD4]) =
      concatenate_person_data (dataForPerson wDb1 1) ++
        (submissionHeader ((dataForPerson wDb1 1).length + 1) wD4.created_at ++ wD4.raw_text) :=
  (recompute_persona_concatenation_spec wDb1 1).2.2.2.2 (dataForPerson wDb1 1) wD4

/-- C5: for every model-output text, _safe_json_parse attempts exactly
three strategies in order — whole-text parse, first fenced block, first
opening brace to last closing brace — short-circuiting on the first
success, and raises the "could not parse" error if and only if all three
fail (and raises no other error). -/
theorem safe_json_parse_strategy_chain (loads : String → Option Json)
    (fenced : String → Option String) (t : String) :
    (∀ v, loads t = some v → safe_json_parse loads fenced t = .ok v) ∧
    (∀ v, loads t = none → (fenced t).bind loads = some v →
      safe_json_parse loads fenced t = .ok v) ∧
    (∀ v, loads t = none → (fenced t).bind loads = none →
      (braceExtract t).bind loads = some v → safe_json_parse loads fenced t = .ok v) ∧
    (safe_json_parse loads fenced t = .error parseError ↔
      loads t = none ∧ (fenced t).bind loads = none ∧ (braceExtract t).bind loads = none) ∧
    (∀ e, safe_json_parse loads fenced t = .error e → e = parseError) := by
  cases h1 : loads t with
  | some v => simp [safe_json_parse, h1]
  | none =>
    cases h2 : (fenced t).bind loads with
    | some v => simp [safe_json_parse, h1, h2]
    | none =>
      cases h3 : (braceExtract t).bind loads with
      | some v => simp [safe_json_parse, h1, h2, h3]
      | none => simp [safe_json_parse, h1, h2, h3]

/-- Witness for C5: on the text "x" no strategy can succeed under a
decoder that rejects everything, so the parse failure is raised. -/
theorem safe_json_parse_strategy_chain_witness :
    ((fun _ : String => (none : Option Json)) "x" = none ∧
      ((fun _ : String => (none : Option String)) "x").bind (fun _ => (none : Option Json)) = none ∧
      (braceExtract "x").bind (fun _ : String => (none : Option Json)) = none) ∧
    safe_json_parse (fun _ => none) (fun _ => none) "x" = .error parseError := by
  refine ⟨⟨rfl, rfl, by rfl⟩, ?_⟩
  exact (safe_json_parse_strategy_chain (fun _ => none) (fun _ => none) "x").2.2.2.1.mpr
    ⟨rfl, rfl, by rfl⟩

/-- C7: exporting with format "json" from an empty persona set yields
total_exported = 0 and an empty list, never an error; any other format
fails with the validation-kind unsupported-format error, independently of
the stored personas (the check precedes the storage read). -/
theorem export_personas_spec (format : String) (limit now : Nat) :
    (export_personas [] "json" limit now =
      .ok { export_format := "json", exported_at := now, total_exported := 0,
            total_in_system := 0, personas := [] }) ∧
    (format ≠ "json" → ∀ store : PersonaStore,
      export_personas store format limit now =
        .error ((Err.validation ("Unsupported export format: " ++ format)).wrap
          "Failed to export personas: ")) := by
  constructor
  · simp [export_personas, repo_read_all, List.mergeSort]
  · intro h store
    simp [export_personas, h]

/-- Witness for C7 at the unsupported format "xml". -/
theorem export_personas_spec_witness :
    ("xml" : String) ≠ "json" ∧
    export_personas [] "xml" 5 7 =
      .error ((Err.validation ("Unsupported export format: " ++ "xml")).wrap
        "Failed to export personas: ") :=
  ⟨by decide, (export_personas_spec "xml" 5 7).2 (by decide) []⟩

/-- C8: in a multi-URL batch an individual URL failure is non-fatal as
long as some URL contributes content: the result joins the extracted text
of every contributing URL in order with the delimiter, the fetch fails
exactly when no URL contributes content, and extraction drops the content
of script and style elements. -/
theorem fetch_multiple_spec (net : String → Except URLFetchErr (List HtmlNode))
    (urls : List String) :
    ((∃ u ∈ urls, (fetchContent net u).isSome) →
      fetch_multiple net urls =
        .ok (String.intercalate "\n\n---\n\n" (urls.filterMap (fetchContent net)))) ∧
    (fetch_multiple net urls =
        .error (.requestErr ("Failed to fetch content from all " ++ toString urls.length ++ " URLs"))
      ↔ ∀ u ∈ urls, fetchContent net u = none) ∧
    (∀ u ∈ urls, ∀ c, fetchContent net u = some c → c ∈ urls.filterMap (fetchContent net)) ∧
    (∀ tag cs rest, tag = "script" ∨ tag = "style" →
      extract_text (HtmlNode.elem tag cs :: rest) = extract_text rest) := by
  have hempty : (urls.filterMap (fetchContent net)).isEmpty = true ↔
      ∀ u ∈ urls, fetchContent net u = none := by
    rw [List.isEmpty_iff, List.filterMap_eq_nil_iff]
  refine ⟨?_, ?_, ?_, ?_⟩
  · rintro ⟨u, hu, hsome⟩
    have hne : ¬ (urls.filterMap (fetchContent net)).isEmpty = true := by
      intro h
      rw [hempty] at h
      rw [h u hu] at hsome
      simp at hsome
    simp only [fetch_multiple]
    rw [if_neg hne]
  · constructor
    · intro h
      by_cases hc : (urls.filterMap (fetchContent net)).isEmpty = true
      · exact hempty.mp hc
      · simp only [fetch_multiple] at h
        rw [if_neg hc] at h
        exact absurd h (by simp)
    · intro h
      simp only [fetch_multiple]
      rw [if_pos (hempty.mpr h)]
  · intro u hu c hc
    exact List.mem_filterMap.mpr ⟨u, hu, hc⟩
  · rintro tag cs rest (rfl | rfl) <;> rfl

/-- Witness for C8: URL "a" contributes "Alpha" while URL "b" fails with
HTTP 404; the batch still succeeds with the joined contributions. -/
theorem fetch_multiple_spec_witness :
    (∃ u ∈ ["a", "b"], (fetchContent wNet u).isSome) ∧
    fetch_multiple wNet ["a", "b"] =
      .ok (String.intercalate "\n\n---\n\n" (["a", "b"].filterMap (fetchContent wNet))) :=
  ⟨⟨"a", by simp, by decide⟩, (fetch_multiple_spec wNet ["a", "b"]).1 ⟨"a", by simp, by decide⟩⟩

/-- C10: _safe_json_parse guarantees only valid JSON, not a JSON object —
when the first successful strategy yields a non-object value it is
returned as-is rather than raising the parse error, and generate_persona
then fails at the metadata-attachment step with the dict-assignment
TypeError, never surfacing as the "could not parse" condition. -/
theorem generate_persona_nonobject_passthrough
    (llm1 llm2 : String → Except Err String) (loads : String → Option Json)
    (fenced : String → Option String) (model raw cleaned t : String) (v : Json)
    (h1 : llm1 raw = .ok cleaned) (h2 : llm2 cleaned = .ok t)
    (hv : safe_json_parse loads fenced t = .ok v) (hobj : v.isObj = false) :
    safe_json_parse loads fenced t ≠ .error parseError ∧
    (∃ m, generate_persona llm1 llm2 loads fenced model raw = .error (Err.typeError m)) ∧
    (∀ m, generate_persona llm1 llm2 loads fenced model raw ≠ .error (Err.parseFailure m)) := by
  have hgen : generate_persona llm1 llm2 loads fenced model raw
      = attachMeta v raw.length cleaned.length model := by
    simp [generate_persona, step1_clean_text, h1, step2_populate_persona, h2, hv]
  have hattach : ∃ m, attachMeta v raw.length cleaned.length model
      = .error (Err.typeError m) := by
    cases v with
    | obj fields => simp [Json.isObj] at hobj
    | arr items => exact ⟨_, rfl⟩
    | str s => exact ⟨_, rfl⟩
    | num n => exact ⟨_, rfl⟩
    | boolean b => exact ⟨_, rfl⟩
    | null => exact ⟨_, rfl⟩
  obtain ⟨m, hm⟩ := hattach
  refine ⟨by simp [hv], ⟨m, by rw [hgen, hm]⟩, ?_⟩
  intro m2
  rw [hgen, hm]
  simp

/-- Witness for C10: the model output "[1]" decodes to a bare array; the
chain returns it and generate_persona fails with the TypeError. -/
theorem generate_persona_nonobject_passthrough_witness :
    ((fun _ : String => (Except.ok "notes" : Except Err String)) "hi" = .ok "notes" ∧
      (fun _ : String => (Except.ok "[1]" : Except Err String)) "notes" = .ok "[1]" ∧
      safe_json_parse wLoads (fun _ => none) "[1]" = .ok (.arr [.num 1]) ∧
      (Json.arr [.num 1]).isObj = false) ∧
    safe_json_parse wLoads (fun _ => none) "[1]" ≠ .error parseError ∧
    (∃ m, generate_persona (fun _ => .ok "notes") (fun _ => .ok "[1]") wLoads
      (fun _ => none) "gpt" "hi" = .error (Err.typeError m)) ∧
    (∀ m, generate_persona (fun _ => .ok "notes") (fun _ => .ok "[1]") wLoads
      (fun _ => none) "gpt" "hi" ≠ .error (Err.parseFailure m)) :=
  ⟨⟨rfl, rfl, by rfl, rfl⟩,
   generate_persona_nonobject_passthrough (fun _ => .ok "notes") (fun _ => .ok "[1]")
     wLoads (fun _ => none) "gpt" "hi" "notes" "[1]" (.arr [.num 1])
     rfl rfl (by rfl) rfl⟩

/-- C6: a successful merge — with the optional merged text supplied or
not — leaves the second persona unresolvable (a subsequent get signals
not-found) and the first resolvable, regenerated from the combined text,
which when no merged text is supplied is the concatenation of both raw
texts with a separator. -/
theorem merge_personas_effect (gen : String → Except Err Json)
    (store : PersonaStore) (id1 id2 now : Nat) (p1 p2 : PersonaRec) (doc : Json)
    (mtext : Option String)
    (h1 : repo_read store id1 = some p1) (h2 : repo_read store id2 = some p2)
    (hne : id1 ≠ id2)
    (hgen : gen (mtext.getD (mergedTextDefault p1 p2)) = .ok doc) :
    (merge_personas gen store id1 id2 mtext now).2 =
      .ok (applyRecUpdate (mtext.getD (mergedTextDefault p1 p2)) doc now p1) ∧
    repo_read (merge_personas gen store id1 id2 mtext now).1 id2 = none ∧
    (∃ m, synth_get_persona (merge_personas gen store id1 id2 mtext now).1 id2 =
      .error (Err.notFound m)) ∧
    repo_read (merge_personas gen store id1 id2 mtext now).1 id1 =
      some (applyRecUpdate (mtext.getD (mergedTextDefault p1 p2)) doc now p1) ∧
    (none : Option String).getD (mergedTextDefault p1 p2) =
      p1.raw_text ++ "\n\n---\n\n" ++ p2.raw_text := by
  have hg1 : synth_get_persona store id1 = .ok p1 := by
    unfold synth_get_persona; rw [h1]
  have hg2 : synth_get_persona store id2 = .ok p2 := by
    unfold synth_get_persona; rw [h2]
  have hreg : synth_regenerate_persona gen store id1 (mtext.getD (mergedTextDefault p1 p2)) now =
      (store.map (fun r =>
        if r.id == id1 then applyRecUpdate (mtext.getD (mergedTextDefault p1 p2)) doc now r else r),
       .ok (applyRecUpdate (mtext.getD (mergedTextDefault p1 p2)) doc now p1)) := by
    unfold synth_regenerate_persona
    rw [hgen]
    unfold repo_update
    rw [h1]
  have hmerge : merge_personas gen store id1 id2 mtext now =
      ((store.map (fun r =>
          if r.id == id1 then applyRecUpdate (mtext.getD (mergedTextDefault p1 p2)) doc now r
          else r)).filter (fun r => !(r.id == id2)),
       .ok (applyRecUpdate (mtext.getD (mergedTextDefault p1 p2)) doc now p1)) := by
    unfold merge_personas
    simp only [hg1, hg2, hreg, synth_delete_persona]
  have hnone : repo_read (merge_personas gen store id1 id2 mtext now).1 id2 = none := by
    rw [hmerge]
    apply List.find?_eq_none.mpr
    intro x hx
    have hq := (List.mem_filter.mp hx).2
    simp only [Bool.not_eq_eq_eq_not, Bool.not_true] at hq
    simp [hq]
  refine ⟨by rw [hmerge], hnone, ?_, ?_, rfl⟩
  · unfold synth_get_persona
    rw [hnone]
    exact ⟨_, rfl⟩
  · rw [hmerge]
    show List.find? (fun r => r.id == id1)
        ((store.map (fun r =>
          if r.id == id1 then applyRecUpdate (mtext.getD (mergedTextDefault p1 p2)) doc now r
          else r)).filter (fun r => !(r.id == id2))) =
      some (applyRecUpdate (mtext.getD (mergedTextDefault p1 p2)) doc now p1)
    rw [find?_filter_keep (fun r : PersonaRec => r.id == id1)
      (fun r : PersonaRec => !(r.id == id2))
      (fun (a : PersonaRec) ha => by
        have ha2 : a.id = id1 := by simpa using ha
        simp [ha2, hne])]
    exact find?_map_ite (fun r : PersonaRec => r.id == id1)
      (applyRecUpdate (mtext.getD (mergedTextDefault p1 p2)) doc now) (fun r => rfl) store p1 h1

/-- Witness for C6: merging personas 1 and 2 of the concrete store with a
supplied merged text deletes persona 2 and rewrites persona 1 with that
text. -/
theorem merge_personas_effect_witness :
    (repo_read wStore6 1 = some wRec6a ∧ repo_read wStore6 2 = some wRec6b ∧
      (1 : Nat) ≠ 2 ∧
      wGen6 ((some "A and B combined" : Option String).getD (mergedTextDefault wRec6a wRec6b)) =
        .ok (.obj [])) ∧
    (merge_personas wGen6 wStore6 1 2 (some "A and B combined") 9).2 =
      .ok (applyRecUpdate
        ((some "A and B combined" : Option String).getD (mergedTextDefault wRec6a wRec6b))
        (.obj []) 9 wRec6a) ∧
    repo_read (merge_personas wGen6 wStore6 1 2 (some "A and B combined") 9).1 2 = none ∧
    (∃ m, synth_get_persona (merge_personas wGen6 wStore6 1 2 (some "A and B combined") 9).1 2 =
      .error (Err.notFound m)) ∧
    repo_read (merge_personas wGen6 wStore6 1 2 (some "A and B combined") 9).1 1 =
      some (applyRecUpdate
        ((some "A and B combined" : Option String).getD (mergedTextDefault wRec6a wRec6b))
        (.obj []) 9 wRec6a) ∧
    (none : Option String).getD (mergedTextDefault wRec6a wRec6b) =
      wRec6a.raw_text ++ "\n\n---\n\n" ++ wRec6b.raw_text :=
  ⟨⟨rfl, rfl, by decide, rfl⟩,
   merge_personas_effect wGen6 wStore6 1 2 9 wRec6a wRec6b (.obj [])
     (some "A and B combined") rfl rfl (by decide) rfl⟩

/-- C9: merge_personas deletes the second persona only after the
regeneration of the first succeeds — when the LLM regeneration fails the
operation raises, the store is unchanged and both personas remain
resolvable. -/
theorem merge_personas_atomic_on_failure (gen : String → Except Err Json)
    (store : PersonaStore) (id1 id2 now : Nat) (p1 p2 : PersonaRec)
    (mtext : Option String) (e : Err)
    (h1 : repo_read store id1 = some p1) (h2 : repo_read store id2 = some p2)
    (hgen : gen (mtext.getD (mergedTextDefault p1 p2)) = .error e) :
    merge_personas gen store id1 id2 mtext now =
      (store, .error ((e.wrap "Failed to regenerate persona: ").wrap
        "Failed to merge personas: ")) ∧
    synth_get_persona store id1 = .ok p1 ∧
    synth_get_persona store id2 = .ok p2 := by
  have hg1 : synth_get_persona store id1 = .ok p1 := by
    unfold synth_get_persona; rw [h1]
  have hg2 : synth_get_persona store id2 = .ok p2 := by
    unfold synth_get_persona; rw [h2]
  have hreg : synth_regenerate_persona gen store id1 (mtext.getD (mergedTextDefault p1 p2)) now =
      (store, .error (e.wrap "Failed to regenerate persona: ")) := by
    unfold synth_regenerate_persona
    rw [hgen]
  refine ⟨?_, hg1, hg2⟩
  unfold merge_personas
  simp only [hg1, hg2, hreg]

/-- Witness for C9: with an always-failing LLM the merge of personas 7 and
8 raises and both records survive unchanged. -/
theorem merge_personas_atomic_on_failure_witness :
    (repo_read wStore9 7 = some wRec9a ∧ repo_read wStore9 8 = some wRec9b ∧
      wGen9 ((none : Option String).getD (mergedTextDefault wRec9a wRec9b)) =
        .error (.upstream "llm down")) ∧
    merge_personas wGen9 wStore9 7 8 none 4 =
      (wStore9, .error (((Err.upstream "llm down").wrap "Failed to regenerate persona: ").wrap
        "Failed to merge personas: ")) ∧
    synth_get_persona wStore9 7 = .ok wRec9a ∧
    synth_get_persona wStore9 8 = .ok wRec9b :=
  ⟨⟨rfl, rfl, rfl⟩,
   merge_personas_atomic_on_failure wGen9 wStore9 7 8 4 wRec9a wRec9b none
     (.upstream "llm down") rfl rfl rfl⟩

end PersonaApi
